import Mathlib

/-!
Shallow embedding of the captcha-ark repository.

Two source files are modelled:
* `src/src/main.rs` — the Verification Client (a WASI process that talks to
  the launchpad challenge service over HTTP and prints one JSON object).
* `src/token-sale-contract/src/lib.rs` — the Settlement Coordinator
  (NEAR contract `TokenSaleContract` with entry point `buy_tokens` and
  continuation `on_captcha_verified`).

Machine integers in the source are `u128` yoctoNEAR amounts; they are
modelled as `Nat` (all quantities in the claims stay far below `2^128`,
where the NEAR SDK would trap on overflow anyway). HTTP transport is
modelled as an oracle (`Env`) giving each endpoint's response; the client
definitions additionally return the list of requests they issue, so that
"no further request is made" is expressible. Log/eprintln output is a side
channel outside the contract and is not modelled.
-/

namespace CaptchaArk

/-! ## Verification Client (`src/src/main.rs`) -/

/-- The JSON object read from stdin (`struct Input`). -/
structure Input where
  session_id : String
  buyer : String
  amount : String
  launchpad_url : String
deriving DecidableEq

/-- The JSON object written to stdout (`struct Output`). -/
structure Output where
  verified : Bool
  session_id : String
  error : Option String
  error_type : Option String
deriving DecidableEq

/-- Response of `POST {base}/api/captcha/challenge` (`struct ChallengeResponse`). -/
structure ChallengeResponse where
  challenge_id : String
deriving DecidableEq

/-- Response of the wait/verify endpoints (`struct VerifyResponse`). -/
structure VerifyResponse where
  status : String
  verified : Bool
deriving DecidableEq

instance {ε α : Type} [DecidableEq ε] [DecidableEq α] : DecidableEq (Except ε α) := fun a b =>
  match a, b with
  | .ok x, .ok y =>
    if h : x = y then isTrue (by rw [h]) else isFalse (fun hh => h (Except.ok.inj hh))
  | .error x, .error y =>
    if h : x = y then isTrue (by rw [h]) else isFalse (fun hh => h (Except.error.inj hh))
  | .ok _, .error _ => isFalse (fun hh => Except.noConfusion hh)
  | .error _, .ok _ => isFalse (fun hh => Except.noConfusion hh)

/-- Outcome of one HTTP exchange as seen by the client: either `.send()`
returned `Err`, or a response arrived with a status code, a body read that
may itself fail (`.body()`), and a JSON decode that may fail
(`serde_json::from_slice`). -/
inductive HttpResult (α : Type) where
  | sendFailed (e : String)
  | response (status : Nat) (body : Except String String) (parsed : Except String α)
deriving DecidableEq

/-- Requests the client can issue, in order of issue. -/
inductive Request where
  | challengeReq
  | waitReq (challenge_id : String)
  | verifyReq (challenge_id : String)
deriving DecidableEq

/-- The challenge service as an oracle. `verifyDirect` is the
`GET {base}/api/captcha/verify/{id}` endpoint; it exists at the service but
(as the theorems below establish) is never queried by the client. -/
structure Env where
  challenge : HttpResult ChallengeResponse
  wait : HttpResult VerifyResponse
  verifyDirect : HttpResult VerifyResponse
deriving DecidableEq

/-- The final `match verify_data.status.as_str()` of `verify_captcha`,
mapping the wait response to the `(verified, error_type)` pair returned. -/
def classifyStatus (vd : VerifyResponse) : Bool × Option String :=
  if vd.status = "solved" then
    if vd.verified then (true, none)
    else (false, some "wrong_answer")
  else if vd.status = "timeout" then (false, some "timeout")
  else if vd.status = "pending" then (false, some "timeout")
  else (false, some "system_error")

/-- `fn verify_captcha(input: &Input)`: the three-step protocol body.
Returns the Rust function's `Result<(bool, Option<String>), _>` paired with
the list of HTTP requests issued. -/
def verify_captcha (env : Env) : Except String (Bool × Option String) × List Request :=
  match env.challenge with
  | .sendFailed e => (.error e, [.challengeReq])
  | .response st body parsed =>
    if st < 200 ∨ 300 ≤ st then
      (match body with
       | .ok bodyText =>
         .error ("Failed to create challenge. Status: " ++ toString st ++ ". Details: " ++ bodyText)
       | .error e =>
         .error ("Failed to create challenge. Status: " ++ toString st ++ ". Failed to read body: " ++ e),
       [.challengeReq])
    else
      match body with
      | .error e => (.error e, [.challengeReq])
      | .ok _ =>
        match parsed with
        | .error e => (.error e, [.challengeReq])
        | .ok challenge_data =>
          match env.wait with
          | .sendFailed e => (.error e, [.challengeReq, .waitReq challenge_data.challenge_id])
          | .response st2 body2 parsed2 =>
            if st2 < 200 ∨ 300 ≤ st2 then
              (match body2 with
               | .ok bodyText =>
                 .error ("Failed to verify CAPTCHA. Status: " ++ toString st2 ++ ". Details: " ++ bodyText)
               | .error e =>
                 .error ("Failed to verify CAPTCHA. Status: " ++ toString st2 ++ ". Failed to read body: " ++ e),
               [.challengeReq, .waitReq challenge_data.challenge_id])
            else
              match body2 with
              | .error e => (.error e, [.challengeReq, .waitReq challenge_data.challenge_id])
              | .ok _ =>
                match parsed2 with
                | .error e => (.error e, [.challengeReq, .waitReq challenge_data.challenge_id])
                | .ok verify_data =>
                  (.ok (classifyStatus verify_data),
                   [.challengeReq, .waitReq challenge_data.challenge_id])

/-- `fn main()` after a successful stdin read and JSON decode of `Input`:
the list of JSON objects printed to stdout and whether the process exits
successfully (`main` returning `Ok(())`). -/
def mainRun (input : Input) (env : Env) : List Output × Bool :=
  match (verify_captcha env).1 with
  | .error e =>
    ([⟨false, input.session_id, some ("Verification failed: " ++ e), some "system_error"⟩], true)
  | .ok (v, et) => ([⟨v, input.session_id, none, et⟩], true)

/-! ## Settlement Coordinator (`src/token-sale-contract/src/lib.rs`) -/

/-- `const MIN_PURCHASE: u128 = 100_000_000_000_000_000;` (0.0001 NEAR). -/
def MIN_PURCHASE : Nat := 100000000000000000

/-- `const TOKENS_PER_NEAR: u128 = 100;` -/
def TOKENS_PER_NEAR : Nat := 100

/-- `let min_total = MIN_PURCHASE + 110_000_000_000_000_000_000_000;` in `buy_tokens`. -/
def min_total : Nat := MIN_PURCHASE + 110000000000000000000000

/-- `NearToken::as_near`: whole NEAR from yoctoNEAR (integer division). -/
def as_near (yocto : Nat) : Nat := yocto / 1000000000000000000000000

/-- `struct CaptchaResponse` decoded from the executor's result payload. -/
structure CaptchaResponse where
  verified : Bool
  session_id : String
  error : Option String
  error_type : Option String
deriving DecidableEq

/-- `near_sdk::PromiseError` (the `Err` side of a `#[callback_result]`). -/
inductive PromiseError where
  | failed
  | notReady
deriving DecidableEq

/-- Rust `Debug` rendering of `PromiseError`. -/
def PromiseError.reprStr : PromiseError → String
  | .failed => "Failed"
  | .notReady => "NotReady"

/-- `struct TokenSaleContract` state. -/
structure TokenSaleContract where
  owner : String
  tokens_sold : Nat
  total_supply : Nat
  launchpad_url : String
deriving DecidableEq

/-- What a successful `buy_tokens` dispatches: the OutLayer job and the
registered continuation. `purchase_amount` is the value the continuation is
keyed with (`NearToken::from_yoctonear(purchase_amount)`); `funding` is the
deposit attached to the `request_execution` call (`total_attached`). -/
structure DispatchRecord where
  buyer : String
  purchase_amount : Nat
  funding : Nat
  session_id : String
  launchpad_url : String
deriving DecidableEq

/-- `pub fn buy_tokens(&mut self, session_id: String)`. A failed `assert!`
panics before any state change or external call, modelled as `.error` with
the assert's message; success returns the (unchanged) state together with
the dispatch it schedules. -/
def buy_tokens (c : TokenSaleContract) (buyer : String) (total_attached : Nat)
    (session_id : String) : Except String (TokenSaleContract × DispatchRecord) :=
  if total_attached < min_total then
    .error "Attach at least 0.11 NEAR (0.0001 NEAR minimum purchase + 0.11 NEAR for OutLayer execution)"
  else
    let purchase_amount :=
      if MIN_PURCHASE * 2 ≤ total_attached then total_attached - 100000000000000000000000
      else MIN_PURCHASE
    let tokens_amount := purchase_amount / 1000000000000000000000000 * TOKENS_PER_NEAR
    if c.tokens_sold + tokens_amount ≤ c.total_supply then
      .ok (c, ⟨buyer, purchase_amount, total_attached, session_id, c.launchpad_url⟩)
    else
      .error ("Not enough tokens available. Sold: " ++ toString c.tokens_sold ++
        ", Requested: " ++ toString tokens_amount ++ ", Total: " ++ toString c.total_supply)

/-- External calls scheduled by a `buy_tokens` outcome (empty when the
dispatch was rejected by an assert). -/
def dispatched (r : Except String (TokenSaleContract × DispatchRecord)) : List DispatchRecord :=
  match r with
  | .ok (_, rec) => [rec]
  | .error _ => []

/-- Whether a `buy_tokens` outcome is a synchronous rejection. -/
def isErr (r : Except String (TokenSaleContract × DispatchRecord)) : Bool :=
  match r with
  | .error _ => true
  | .ok _ => false

/-- The continuation input that takes the commit branch:
`Ok(Some(response)) if response.verified`. -/
def isCommitInput (result : Except PromiseError (Option CaptchaResponse)) : Bool :=
  match result with
  | .ok (some response) => response.verified
  | _ => false

/-- Result of one continuation invocation: the new contract state, the
value transfers it performs (`Promise::new(buyer).transfer(amount)` as
`(receiver, yocto)` pairs) and the returned status message. -/
structure ContinuationResult where
  state : TokenSaleContract
  transfers : List (String × Nat)
  message : String
deriving DecidableEq

/-- `pub fn on_captcha_verified(&mut self, buyer, amount, result)`. -/
def on_captcha_verified (c : TokenSaleContract) (buyer : String) (amount : Nat)
    (result : Except PromiseError (Option CaptchaResponse)) : ContinuationResult :=
  match result with
  | .ok (some response) =>
    if response.verified then
      let tokens_amount := amount / 1000000000000000000000000 * TOKENS_PER_NEAR
      { state := { c with tokens_sold := c.tokens_sold + tokens_amount }
        transfers := []
        message := "Success! You bought " ++ toString tokens_amount ++ " tokens for " ++
          toString (as_near amount) ++ " NEAR. Session: " ++ response.session_id }
    else
      let error_type := response.error_type.getD "unknown"
      { state := c
        transfers := [(buyer, amount)]
        message :=
          if error_type = "wrong_answer" then
            "âŒ CAPTCHA failed: Wrong answer. Transaction cancelled. Refunded " ++
              toString (as_near amount) ++ " NEAR."
          else if error_type = "timeout" then
            "â± CAPTCHA timeout: You didn\x27t complete CAPTCHA in time. Transaction cancelled. Refunded " ++
              toString (as_near amount) ++ " NEAR."
          else if error_type = "network_error" then
            "ðŸŒ Network error during CAPTCHA verification. Transaction cancelled. Refunded " ++
              toString (as_near amount) ++ " NEAR."
          else
            "âŒ CAPTCHA verification failed. Transaction cancelled. Refunded " ++
              toString (as_near amount) ++ " NEAR. Error: " ++
              toString (repr (response.error.getD "Unknown error")) }
  | .ok none =>
    { state := c
      transfers := [(buyer, amount)]
      message := "Verification error (execution failed). Refunded " ++
        toString (as_near amount) ++ " NEAR." }
  | .error promise_error =>
    { state := c
      transfers := [(buyer, amount)]
      message := "System error. Refunded " ++ toString (as_near amount) ++
        " NEAR. Error: " ++ promise_error.reprStr }

/-! ## Concrete instances used by witnesses and counterexamples -/

/-- A fresh contract state with plenty of supply. -/
def cEx : TokenSaleContract := ⟨"owner.testnet", 0, 1000000, "https://launchpad.example"⟩

/-- A sold-out contract state (`tokens_sold == total_supply`). -/
def cFull : TokenSaleContract := ⟨"owner.testnet", 100, 100, "https://launchpad.example"⟩

/-- A contract whose whole supply fits exactly one 1-NEAR purchase. -/
def cSmall : TokenSaleContract := ⟨"owner.testnet", 0, 100, "https://launchpad.example"⟩

/-- A service run where the long-poll returns `pending` while the direct
verify endpoint would report `solved`/not verified. -/
def envPending : Env :=
  ⟨.response 200 (.ok "ok") (.ok ⟨"ch-1"⟩),
   .response 200 (.ok "ok") (.ok ⟨"pending", false⟩),
   .response 200 (.ok "ok") (.ok ⟨"solved", false⟩)⟩

/-- A run where challenge creation answers HTTP 500. -/
def envCreate500 : Env :=
  ⟨.response 500 (.ok "internal error") (.error "no parse"),
   .response 200 (.ok "ok") (.ok ⟨"solved", true⟩),
   .response 200 (.ok "ok") (.ok ⟨"solved", true⟩)⟩

/-- A concrete stdin object. -/
def inputEx : Input := ⟨"sess-1", "alice.near", "1000000000000000000000000", "https://launchpad.example"⟩

/-! ## Theorems -/

/-- Claim C6 (confirmed): the Verification Client's classification of the
wait response is a total function of the `(status, verified)` pair:
`("solved", true) ↦ Verified` (verified flag true, no error type),
`("solved", false) ↦ Rejected(wrong_answer)`, `("timeout", _) ↦ TimedOut`,
and any status other than solved/timeout/pending maps to
`ExecutionFailed(system_error)`; every pair lands in the closed set of
outcomes, none unclassified. -/
theorem C6_classification_total (s : String) (b : Bool) :
    classifyStatus ⟨"solved", true⟩ = (true, none) ∧
    classifyStatus ⟨"solved", false⟩ = (false, some "wrong_answer") ∧
    classifyStatus ⟨"timeout", b⟩ = (false, some "timeout") ∧
    (s ≠ "solved" → s ≠ "timeout" → s ≠ "pending" →
      classifyStatus ⟨s, b⟩ = (false, some "system_error")) ∧
    (classifyStatus ⟨s, b⟩ = (true, none) ∨
     classifyStatus ⟨s, b⟩ = (false, some "wrong_answer") ∨
     classifyStatus ⟨s, b⟩ = (false, some "timeout") ∨
     classifyStatus ⟨s, b⟩ = (false, some "system_error")) := by
  refine ⟨rfl, rfl, by cases b <;> rfl, ?_, ?_⟩
  · intro h1 h2 h3
    simp only [classifyStatus]
    rw [if_neg h1, if_neg h2, if_neg h3]
  · simp only [classifyStatus]
    split_ifs <;> simp

/-- Witness for C6 at a concrete unknown status string. -/
theorem C6_classification_total_witness :
    ("weird" : String) ≠ "solved" ∧ ("weird" : String) ≠ "timeout" ∧
    ("weird" : String) ≠ "pending" ∧
    classifyStatus ⟨"weird", false⟩ = (false, some "system_error") :=
  ⟨by decide, by decide, by decide,
   (C6_classification_total "weird" false).2.2.2.1 (by decide) (by decide) (by decide)⟩

/-- Claim C9 (confirmed): for every decoded input object and every service
behaviour, the process writes exactly one `Output` object (carrying the
input's session id) and `main` returns `Ok(())` — failure is reported only
inside the payload, never via the exit status. -/
theorem C9_single_output_exit_success (input : Input) (env : Env) :
    (mainRun input env).1.length = 1 ∧ (mainRun input env).2 = true ∧
    (mainRun input env).1.map Output.session_id = [input.session_id] := by
  cases hv : (verify_captcha env).1 with
  | error e => simp [mainRun, hv]
  | ok p => obtain ⟨v, et⟩ := p; simp [mainRun, hv]

/-- Claim C4 (confirmed): every continuation invocation performs exactly one
of a ledger increment (no transfer, `tokens_sold` grows by exactly
`amount / 1 NEAR * TOKENS_PER_NEAR`) or a single refund transfer of
`amount` to the buyer (ledger unchanged); the two descriptions are mutually
exclusive, so never both and never neither. -/
theorem C4_exactly_one_effect (c : TokenSaleContract) (buyer : String) (amount : Nat)
    (result : Except PromiseError (Option CaptchaResponse)) :
    (((on_captcha_verified c buyer amount result).transfers = [] ∧
      (on_captcha_verified c buyer amount result).state.tokens_sold =
        c.tokens_sold + amount / 1000000000000000000000000 * TOKENS_PER_NEAR) ∨
     ((on_captcha_verified c buyer amount result).transfers = [(buyer, amount)] ∧
      (on_captcha_verified c buyer amount result).state.tokens_sold = c.tokens_sold)) ∧
    ([] : List (String × Nat)) ≠ [(buyer, amount)] := by
  refine ⟨?_, by simp⟩
  cases result with
  | error e => right; exact ⟨rfl, rfl⟩
  | ok o =>
    cases o with
    | none => right; exact ⟨rfl, rfl⟩
    | some response =>
      by_cases hv : response.verified
      · left; simp [on_captcha_verified, hv]
      · right; simp [on_captcha_verified, hv]

/-- Claim C7 (confirmed): any attached value strictly below the configured
minimum is rejected by the first `assert!` with its descriptive message;
the state is not returned changed and no external dispatch is scheduled. -/
theorem C7_below_min_rejected (c : TokenSaleContract) (buyer session_id : String)
    (total_attached : Nat) (h : total_attached < min_total) :
    buy_tokens c buyer total_attached session_id =
      .error "Attach at least 0.11 NEAR (0.0001 NEAR minimum purchase + 0.11 NEAR for OutLayer execution)" ∧
    dispatched (buy_tokens c buyer total_attached session_id) = [] := by
  have he : buy_tokens c buyer total_attached session_id =
      .error "Attach at least 0.11 NEAR (0.0001 NEAR minimum purchase + 0.11 NEAR for OutLayer execution)" := by
    unfold buy_tokens
    rw [if_pos h]
  exact ⟨he, by rw [he]; rfl⟩

/-- Witness for C7: attaching 0.1 NEAR (below the 0.1101-NEAR floor). -/
theorem C7_below_min_rejected_witness :
    (100000000000000000000000 : Nat) < min_total ∧
    buy_tokens cEx "alice.near" 100000000000000000000000 "sess" =
      .error "Attach at least 0.11 NEAR (0.0001 NEAR minimum purchase + 0.11 NEAR for OutLayer execution)" ∧
    dispatched (buy_tokens cEx "alice.near" 100000000000000000000000 "sess") = [] :=
  ⟨by decide,
   (C7_below_min_rejected cEx "alice.near" "sess" 100000000000000000000000 (by decide)).1,
   (C7_below_min_rejected cEx "alice.near" "sess" 100000000000000000000000 (by decide)).2⟩

/-- Claim C8 (confirmed): a non-2xx response to challenge creation aborts
the flow — the only request ever issued is the creation request itself —
`verify_captcha` returns `Err`, and the process output is a single object
with `verified = false`, `error_type = "system_error"` and a diagnostic
message, while the process still exits successfully. -/
theorem C8_challenge_error_aborts (input : Input) (env : Env) (st : Nat)
    (body : Except String String) (parsed : Except String ChallengeResponse)
    (hch : env.challenge = .response st body parsed) (hst : st < 200 ∨ 300 ≤ st) :
    (verify_captcha env).2 = [.challengeReq] ∧
    ∃ e, (verify_captcha env).1 = .error e ∧
      mainRun input env =
        ([⟨false, input.session_id, some ("Verification failed: " ++ e), some "system_error"⟩], true) := by
  obtain ⟨ch, w, vd⟩ := env
  simp only at hch
  subst hch
  cases body with
  | error e =>
    have hv : verify_captcha ⟨.response st (.error e) parsed, w, vd⟩ =
        (.error ("Failed to create challenge. Status: " ++ toString st ++
          ". Failed to read body: " ++ e), [.challengeReq]) := by
      simp only [verify_captcha]
      rw [if_pos hst]
    refine ⟨by rw [hv], _, by rw [hv], ?_⟩
    simp [mainRun, hv]
  | ok t =>
    have hv : verify_captcha ⟨.response st (.ok t) parsed, w, vd⟩ =
        (.error ("Failed to create challenge. Status: " ++ toString st ++
          ". Details: " ++ t), [.challengeReq]) := by
      simp only [verify_captcha]
      rw [if_pos hst]
    refine ⟨by rw [hv], _, by rw [hv], ?_⟩
    simp [mainRun, hv]

/-- Witness for C8: challenge creation answers HTTP 500. -/
theorem C8_challenge_error_aborts_witness :
    envCreate500.challenge = .response 500 (.ok "internal error") (.error "no parse") ∧
    ((500 : Nat) < 200 ∨ (300 : Nat) ≤ 500) ∧
    (verify_captcha envCreate500).2 = [.challengeReq] ∧
    ∃ e, (verify_captcha envCreate500).1 = .error e ∧
      mainRun inputEx envCreate500 =
        ([⟨false, inputEx.session_id, some ("Verification failed: " ++ e), some "system_error"⟩], true) :=
  ⟨rfl, by decide,
   (C8_challenge_error_aborts inputEx envCreate500 500 (.ok "internal error") (.error "no parse")
     rfl (by decide)).1,
   (C8_challenge_error_aborts inputEx envCreate500 500 (.ok "internal error") (.error "no parse")
     rfl (by decide)).2⟩

/-- Counterexample for C2: a run whose long-poll reports `pending` while
the direct verify endpoint would report `solved`/not-verified. The claim
demands the final outcome `Rejected(wrong_answer)` via a retry; the code
performs no retry (no request beyond the creation and wait requests) and
classifies the run as timeout. -/
theorem C2_counterexample :
    envPending.wait = .response 200 (.ok "ok") (.ok ⟨"pending", false⟩) ∧
    envPending.verifyDirect = .response 200 (.ok "ok") (.ok ⟨"solved", false⟩) ∧
    (verify_captcha envPending).1 = .ok (false, some "timeout") ∧
    (verify_captcha envPending).1 ≠ .ok (false, some "wrong_answer") ∧
    (verify_captcha envPending).2 = [.challengeReq, .waitReq "ch-1"] := by decide

/-- Claim C2 (corrected): when the wait response reports `pending` (after a
successful challenge creation), the client performs no retry at all: it
issues no request to the verify endpoint and immediately classifies the run
as `TimedOut` (`verified = false`, error type `timeout`), regardless of
what the verify endpoint would have answered. -/
theorem C2_pending_is_timeout_no_retry (env : Env) (st1 st2 : Nat) (b1 b2 : String)
    (cd : ChallengeResponse) (vr : VerifyResponse)
    (hch : env.challenge = .response st1 (.ok b1) (.ok cd))
    (h1 : 200 ≤ st1) (h1b : st1 < 300)
    (hw : env.wait = .response st2 (.ok b2) (.ok vr))
    (h2 : 200 ≤ st2) (h2b : st2 < 300)
    (hp : vr.status = "pending") :
    (verify_captcha env).1 = .ok (false, some "timeout") ∧
    (verify_captcha env).2 = [.challengeReq, .waitReq cd.challenge_id] ∧
    ∀ s, Request.verifyReq s ∉ (verify_captcha env).2 := by
  obtain ⟨ch, w, vd⟩ := env
  simp only at hch hw
  subst hch; subst hw
  obtain ⟨vs, vb⟩ := vr
  simp only at hp
  subst hp
  have hv : verify_captcha ⟨.response st1 (.ok b1) (.ok cd),
      .response st2 (.ok b2) (.ok ⟨"pending", vb⟩), vd⟩ =
      (.ok (false, some "timeout"), [.challengeReq, .waitReq cd.challenge_id]) := by
    simp only [verify_captcha]
    rw [if_neg (by omega), if_neg (by omega)]
    rfl
  rw [hv]
  refine ⟨rfl, rfl, ?_⟩
  intro s hs
  simp at hs

/-- Witness for C2's corrected statement on the concrete `envPending` run. -/
theorem C2_pending_is_timeout_no_retry_witness :
    envPending.challenge = .response 200 (.ok "ok") (.ok ⟨"ch-1"⟩) ∧
    envPending.wait = .response 200 (.ok "ok") (.ok ⟨"pending", false⟩) ∧
    (verify_captcha envPending).1 = .ok (false, some "timeout") ∧
    (verify_captcha envPending).2 = [.challengeReq, .waitReq ("ch-1" : String)] ∧
    ∀ s, Request.verifyReq s ∉ (verify_captcha envPending).2 :=
  ⟨rfl, rfl,
   (C2_pending_is_timeout_no_retry envPending 200 200 "ok" "ok" ⟨"ch-1"⟩ ⟨"pending", false⟩
     rfl (by decide) (by decide) rfl (by decide) (by decide) rfl).1,
   (C2_pending_is_timeout_no_retry envPending 200 200 "ok" "ok" ⟨"ch-1"⟩ ⟨"pending", false⟩
     rfl (by decide) (by decide) rfl (by decide) (by decide) rfl).2.1,
   (C2_pending_is_timeout_no_retry envPending 200 200 "ok" "ok" ⟨"ch-1"⟩ ⟨"pending", false⟩
     rfl (by decide) (by decide) rfl (by decide) (by decide) rfl).2.2⟩

/-- Counterexample for C1: attaching 1.2 NEAR, the dispatch records a
purchase amount of 1.1 NEAR (the attached value minus the 0.1-NEAR
execution-fee reserve), and the wrong-answer continuation transfers back
exactly that 1.1 NEAR — not the 1.2 NEAR originally attached. -/
theorem C1_counterexample :
    buy_tokens cEx "alice.near" 1200000000000000000000000 "sess" =
      .ok (cEx, ⟨"alice.near", 1100000000000000000000000, 1200000000000000000000000,
        "sess", "https://launchpad.example"⟩) ∧
    (on_captcha_verified cEx "alice.near" 1100000000000000000000000
        (.ok (some ⟨false, "sess", none, some "wrong_answer"⟩))).transfers =
      [("alice.near", 1100000000000000000000000)] ∧
    (1100000000000000000000000 : Nat) ≠ 1200000000000000000000000 := by decide

/-- Claim C1 (corrected): on every non-commit continuation input the single
refund transfer equals exactly the purchase amount recorded in the
PurchaseIntent at dispatch — which is the attached value minus the
0.1-NEAR execution-fee reserve (or `MIN_PURCHASE` for tiny deposits), not
the full attached value, the whole of which was forwarded to the external
executor as the job's funding. -/
theorem C1_refund_equals_recorded_amount (c c2 : TokenSaleContract)
    (buyer session_id : String) (total_attached : Nat) (rec : DispatchRecord)
    (hd : buy_tokens c buyer total_attached session_id = .ok (c2, rec))
    (result : Except PromiseError (Option CaptchaResponse))
    (hnc : isCommitInput result = false) :
    (on_captcha_verified c2 rec.buyer rec.purchase_amount result).transfers =
      [(rec.buyer, rec.purchase_amount)] ∧
    rec.purchase_amount =
      (if MIN_PURCHASE * 2 ≤ total_attached then total_attached - 100000000000000000000000
       else MIN_PURCHASE) ∧
    rec.funding = total_attached := by
  have htr : ∀ (c3 : TokenSaleContract) (b : String) (a : Nat),
      (on_captcha_verified c3 b a result).transfers = [(b, a)] := by
    intro c3 b a
    cases result with
    | error e => rfl
    | ok o =>
      cases o with
      | none => rfl
      | some response =>
        have hv : response.verified = false := by simpa [isCommitInput] using hnc
        simp [on_captcha_verified, hv]
  simp only [buy_tokens] at hd
  split at hd
  · exact absurd hd (by simp)
  · split at hd
    · rename_i hmp
      split at hd
      · rw [Except.ok.injEq, Prod.mk.injEq] at hd
        obtain ⟨rfl, rfl⟩ := hd
        exact ⟨htr _ _ _, by rw [if_pos hmp], rfl⟩
      · exact absurd hd (by simp)
    · rename_i hmp
      split at hd
      · rw [Except.ok.injEq, Prod.mk.injEq] at hd
        obtain ⟨rfl, rfl⟩ := hd
        exact ⟨htr _ _ _, by rw [if_neg hmp], rfl⟩
      · exact absurd hd (by simp)

/-- Witness for C1's corrected statement: 1.2 NEAR attached, wrong answer,
refund is the recorded 1.1 NEAR. -/
theorem C1_refund_equals_recorded_amount_witness :
    buy_tokens cEx "alice.near" 1200000000000000000000000 "sess" =
      .ok (cEx, ⟨"alice.near", 1100000000000000000000000, 1200000000000000000000000,
        "sess", "https://launchpad.example"⟩) ∧
    isCommitInput (.ok (some (⟨false, "sess", none, some "wrong_answer"⟩ : CaptchaResponse))) = false ∧
    (on_captcha_verified cEx "alice.near" 1100000000000000000000000
        (.ok (some ⟨false, "sess", none, some "wrong_answer"⟩))).transfers =
      [("alice.near", 1100000000000000000000000)] :=
  ⟨by decide, by decide,
   (C1_refund_equals_recorded_amount cEx cEx "alice.near" "sess" 1200000000000000000000000
     ⟨"alice.near", 1100000000000000000000000, 1200000000000000000000000, "sess",
       "https://launchpad.example"⟩
     (by decide) (.ok (some ⟨false, "sess", none, some "wrong_answer"⟩)) (by decide)).1⟩

/-- Counterexample for C5: with the supply exhausted (`tokens_sold =
total_supply`), a 0.2-NEAR call (above the minimum floor, derived token
quantity 0) is NOT rejected: the supply check passes and the external
dispatch is scheduled. -/
theorem C5_counterexample :
    cFull.tokens_sold = cFull.total_supply ∧
    min_total ≤ 200000000000000000000000 ∧
    buy_tokens cFull "alice.near" 200000000000000000000000 "sess" =
      .ok (cFull, ⟨"alice.near", 100000000000000000000000, 200000000000000000000000,
        "sess", "https://launchpad.example"⟩) ∧
    dispatched (buy_tokens cFull "alice.near" 200000000000000000000000 "sess") ≠ [] := by decide

/-- Claim C5 (corrected): when `tokens_sold = total_supply`, a `buy_tokens`
call meeting the minimum floor is rejected synchronously (no dispatch) iff
its derived token quantity is positive, i.e. iff at least 1.1 NEAR is
attached; calls attaching less derive 0 tokens, pass the supply check and
dispatch the verification. -/
theorem C5_exhausted_rejects_only_positive (c : TokenSaleContract)
    (buyer session_id : String) (v : Nat)
    (hfull : c.tokens_sold = c.total_supply) (hmin : min_total ≤ v) :
    (1100000000000000000000000 ≤ v →
      isErr (buy_tokens c buyer v session_id) = true ∧
      dispatched (buy_tokens c buyer v session_id) = []) ∧
    (v < 1100000000000000000000000 →
      isErr (buy_tokens c buyer v session_id) = false) := by
  have hmin' : 110000100000000000000000 ≤ v := by
    simpa [min_total, MIN_PURCHASE] using hmin
  have hnl : ¬ v < min_total := Nat.not_lt.mpr hmin
  have hmp : MIN_PURCHASE * 2 ≤ v := by
    simp only [MIN_PURCHASE]; omega
  constructor
  · intro hbig
    have hq : 1 ≤ (v - 100000000000000000000000) / 1000000000000000000000000 :=
      (Nat.le_div_iff_mul_le (by norm_num)).mpr (by omega)
    have hchk : ¬ (c.tokens_sold +
        (v - 100000000000000000000000) / 1000000000000000000000000 * TOKENS_PER_NEAR ≤
        c.total_supply) := by
      simp only [TOKENS_PER_NEAR]
      omega
    constructor
    · simp only [buy_tokens]
      rw [if_neg hnl, if_pos hmp, if_neg hchk]
      rfl
    · simp only [buy_tokens]
      rw [if_neg hnl, if_pos hmp, if_neg hchk]
      rfl
  · intro hsmall
    have hq0 : (v - 100000000000000000000000) / 1000000000000000000000000 = 0 :=
      Nat.div_eq_of_lt (by omega)
    have hchk : c.tokens_sold +
        (v - 100000000000000000000000) / 1000000000000000000000000 * TOKENS_PER_NEAR ≤
        c.total_supply := by
      rw [hq0]
      simp [hfull]
    simp only [buy_tokens]
    rw [if_neg hnl, if_pos hmp, if_pos hchk]
    rfl

/-- Witness for C5's corrected statement: on the sold-out state, 1.2 NEAR
is rejected while 0.2 NEAR goes through. -/
theorem C5_exhausted_rejects_only_positive_witness :
    cFull.tokens_sold = cFull.total_supply ∧
    min_total ≤ 1200000000000000000000000 ∧
    (1100000000000000000000000 : Nat) ≤ 1200000000000000000000000 ∧
    isErr (buy_tokens cFull "alice.near" 1200000000000000000000000 "sess") = true ∧
    min_total ≤ 200000000000000000000000 ∧
    (200000000000000000000000 : Nat) < 1100000000000000000000000 ∧
    isErr (buy_tokens cFull "bob.near" 200000000000000000000000 "sess") = false :=
  ⟨rfl, by decide, by decide,
   ((C5_exhausted_rejects_only_positive cFull "alice.near" "sess" 1200000000000000000000000
     rfl (by decide)).1 (by decide)).1,
   by decide, by decide,
   (C5_exhausted_rejects_only_positive cFull "bob.near" "sess" 200000000000000000000000
     rfl (by decide)).2 (by decide)⟩

/-- Claim C10 (confirmed): a deposit meeting the floor but whose purchase
amount (deposit minus the 0.1-NEAR reserve) is below 1 NEAR derives 0
tokens; `buy_tokens` passes its supply check and dispatches, and on the
`Verified` path the continuation adds 0 to `tokens_sold`, performs no
refund, and reports a success message with 0 tokens bought. -/
theorem C10_zero_token_verified_commit (c : TokenSaleContract)
    (buyer session_id : String) (v : Nat) (r : CaptchaResponse)
    (hinv : c.tokens_sold ≤ c.total_supply) (hmin : min_total ≤ v)
    (hsmall : v - 100000000000000000000000 < 1000000000000000000000000)
    (hv : r.verified = true) :
    buy_tokens c buyer v session_id =
      .ok (c, ⟨buyer, v - 100000000000000000000000, v, session_id, c.launchpad_url⟩) ∧
    (on_captcha_verified c buyer (v - 100000000000000000000000)
        (.ok (some r))).state.tokens_sold = c.tokens_sold ∧
    (on_captcha_verified c buyer (v - 100000000000000000000000)
        (.ok (some r))).transfers = [] ∧
    (on_captcha_verified c buyer (v - 100000000000000000000000)
        (.ok (some r))).message =
      "Success! You bought 0 tokens for 0 NEAR. Session: " ++ r.session_id := by
  have hmin' : 110000100000000000000000 ≤ v := by
    simpa [min_total, MIN_PURCHASE] using hmin
  have hnl : ¬ v < min_total := Nat.not_lt.mpr hmin
  have hmp : MIN_PURCHASE * 2 ≤ v := by
    simp only [MIN_PURCHASE]; omega
  have hq0 : (v - 100000000000000000000000) / 1000000000000000000000000 = 0 :=
    Nat.div_eq_of_lt hsmall
  have hchk : c.tokens_sold +
      (v - 100000000000000000000000) / 1000000000000000000000000 * TOKENS_PER_NEAR ≤
      c.total_supply := by
    rw [hq0]
    simpa using hinv
  refine ⟨?_, ?_, ?_, ?_⟩
  · simp only [buy_tokens]
    rw [if_neg hnl, if_pos hmp, if_pos hchk]
  · simp [on_captcha_verified, hv, hq0]
  · simp [on_captcha_verified, hv]
  · simp only [on_captcha_verified, hv, if_true]
    rw [as_near, hq0]
    rfl

/-- Witness for C10: 0.2 NEAR attached on a fresh contract, verified. -/
theorem C10_zero_token_verified_commit_witness :
    cEx.tokens_sold ≤ cEx.total_supply ∧
    min_total ≤ 200000000000000000000000 ∧
    (200000000000000000000000 : Nat) - 100000000000000000000000 < 1000000000000000000000000 ∧
    buy_tokens cEx "alice.near" 200000000000000000000000 "sess" =
      .ok (cEx, ⟨"alice.near", 200000000000000000000000 - 100000000000000000000000,
        200000000000000000000000, "sess", cEx.launchpad_url⟩) ∧
    (on_captcha_verified cEx "alice.near"
        (200000000000000000000000 - 100000000000000000000000)
        (.ok (some (⟨true, "sess", none, none⟩ : CaptchaResponse)))).state.tokens_sold =
      cEx.tokens_sold ∧
    (on_captcha_verified cEx "alice.near"
        (200000000000000000000000 - 100000000000000000000000)
        (.ok (some (⟨true, "sess", none, none⟩ : CaptchaResponse)))).transfers = [] :=
  ⟨by decide, by decide, by decide,
   (C10_zero_token_verified_commit cEx "alice.near" "sess" 200000000000000000000000
     ⟨true, "sess", none, none⟩ (by decide) (by decide) (by decide) (by decide)).1,
   (C10_zero_token_verified_commit cEx "alice.near" "sess" 200000000000000000000000
     ⟨true, "sess", none, none⟩ (by decide) (by decide) (by decide) (by decide)).2.1,
   (C10_zero_token_verified_commit cEx "alice.near" "sess" 200000000000000000000000
     ⟨true, "sess", none, none⟩ (by decide) (by decide) (by decide) (by decide)).2.2.1⟩

/-- Claim C3 (code bug, trace at the failing input): on a 100-token supply,
two 1.1-NEAR purchase intents both pass the dispatch-time supply check from
the same ledger state; the continuation then increments `tokens_sold`
without re-checking the ledger, so after both `Verified` continuations run,
`tokens_sold = 200 > total_supply = 100`, violating the invariant. -/
theorem C3_interleaving_overshoots_supply :
    buy_tokens cSmall "alice.near" 1100000000000000000000000 "sa" =
      .ok (cSmall, ⟨"alice.near", 1000000000000000000000000, 1100000000000000000000000,
        "sa", "https://launchpad.example"⟩) ∧
    buy_tokens cSmall "bob.near" 1100000000000000000000000 "sb" =
      .ok (cSmall, ⟨"bob.near", 1000000000000000000000000, 1100000000000000000000000,
        "sb", "https://launchpad.example"⟩) ∧
    (on_captcha_verified
        (on_captcha_verified cSmall "alice.near" 1000000000000000000000000
          (.ok (some ⟨true, "sa", none, none⟩))).state
        "bob.near" 1000000000000000000000000
        (.ok (some ⟨true, "sb", none, none⟩))).state.tokens_sold = 200 ∧
    cSmall.total_supply = 100 ∧
    ¬ ((200 : Nat) ≤ cSmall.total_supply) := by decide

end CaptchaArk
